import Mathlib

/-!
Verification of the natural-language specification of the reportAi
query-construction pipeline against a shallow embedding of the source.

The embedding translates, from the JavaScript source:
  - the schema catalog (src/external-ai-service/config/salesforceMapping,
    field tables embedded verbatim, duplicates included),
  - the SOQL builder (src/external-ai-service/utils/soqlBuilder.js):
    buildSelectClause, buildFromClause, buildWhereClause, buildOrderByClause,
    extractConditionsFromQuery, getDefaultFields, getDefaultConditions,
    getOrderByFields, isFieldValid, generateSOQL, validateSOQL,
  - the gateway fallback (openaiService.js fallbackProcessing).

JavaScript strings are modelled as Lean String (a list of characters);
toUpperCase and toLowerCase are modelled per character, which agrees with
JavaScript on the ASCII data these functions handle; String.includes is a
contiguous-substring test; Array membership and Set deduplication keep
JavaScript semantics (first occurrence wins).  The in-place unshift mutation
in buildSelectClause, visible to the caller of generateSOQL through
aliasing, is modelled explicitly by returnedFields.
-/

/-- Boolean test that the first character list is a prefix of the second. -/
def listPrefixB : List Char → List Char → Bool
  | [], _ => true
  | _ :: _, [] => false
  | a :: as, b :: bs => a == b && listPrefixB as bs

/-- Boolean contiguous-substring test on character lists, modelling the
    JavaScript String.includes method. -/
def substrB (needle : List Char) : List Char → Bool
  | [] => listPrefixB needle []
  | c :: t => listPrefixB needle (c :: t) || substrB needle t

/-- String-level substring test: true when needle occurs contiguously in hay. -/
def jsIncludes (hay needle : String) : Bool := substrB needle.data hay.data

/-- Model of the JavaScript toUpperCase call on the ASCII data in play. -/
def jsUpper (s : String) : String := String.mk (s.data.map Char.toUpper)

/-- Model of the JavaScript toLowerCase call on the ASCII data in play. -/
def jsLower (s : String) : String := String.mk (s.data.map Char.toLower)

/-- Model of the JavaScript trim call: drop whitespace from both ends. -/
def jsTrim (s : String) : String :=
  String.mk (((s.data.dropWhile Char.isWhitespace).reverse.dropWhile Char.isWhitespace).reverse)

/-- Model of the JavaScript Array.join method with the given separator. -/
def joinSep (sep : String) : List String → String
  | [] => ""
  | [x] => x
  | x :: y :: t => x ++ sep ++ joinSep sep (y :: t)

/-- Helper for jsSetDedup: keep elements not seen before, first occurrence wins. -/
def dedupAux (seen : List String) : List String → List String
  | [] => []
  | x :: t => if x ∈ seen then dedupAux seen t else x :: dedupAux (x :: seen) t

/-- Model of the JavaScript spread of a Set built from an array: the distinct
    elements in order of first occurrence. -/
def jsSetDedup (l : List String) : List String := dedupAux [] l

/-- Decimal value of a digit run, as produced by parseInt on the match. -/
def digitsToNat (ds : List Char) : Nat := ds.foldl (fun n c => n * 10 + (c.toNat - 48)) 0

/-- Try to match the regular expression LIMIT whitespace+ digit+ (ignoring
    letter case) at the head of the list; return the parsed number. -/
def matchLimitAt : List Char → Option Nat
  | c0 :: c1 :: c2 :: c3 :: c4 :: rest =>
    if c0.toUpper = 'L' ∧ c1.toUpper = 'I' ∧ c2.toUpper = 'M' ∧ c3.toUpper = 'I' ∧ c4.toUpper = 'T' then
      let ws := rest.takeWhile Char.isWhitespace
      let ds := (rest.dropWhile Char.isWhitespace).takeWhile Char.isDigit
      if ws ≠ [] ∧ ds ≠ [] then some (digitsToNat ds) else none
    else none
  | _ => none

/-- Leftmost match of the LIMIT regular expression, as the JavaScript match
    call returns it. -/
def findLimitValue : List Char → Option Nat
  | [] => none
  | c :: t =>
    match matchLimitAt (c :: t) with
    | some n => some n
    | none => findLimitValue t

/-- Single-quote character, written via its code point. -/
def SQ : String := String.mk [Char.ofNat 39]

/-- Schema catalog entry: valid fields and relationship names of one object. -/
structure SchemaEntry where
  fields : List String
  relationships : List String
deriving DecidableEq

/-- Account entry of the schema catalog, verbatim from salesforceMapping. -/
def accountEntry : SchemaEntry :=
  { fields := ["Id", "Name", "AccountNumber", "Type", "Industry", "Rating", "Phone", "Fax",
      "Website", "PhotoUrl", "BillingStreet", "BillingCity", "BillingState",
      "BillingPostalCode", "BillingCountry", "ShippingStreet", "ShippingCity",
      "ShippingState", "ShippingPostalCode", "ShippingCountry", "Description",
      "NumberOfEmployees", "AnnualRevenue", "OwnerId", "CreatedDate", "CreatedById",
      "LastModifiedDate", "LastModifiedById", "SystemModstamp", "LastActivityDate",
      "LastViewedDate", "LastReferencedDate", "IsDeleted", "MasterRecordId",
      "ParentId", "Active__c", "AUM__c", "Client_Since__c", "Priority__c"],
    relationships := ["Parent", "Contacts", "Opportunities", "Cases", "Tasks", "Events"] }

/-- Contact entry of the schema catalog, verbatim from salesforceMapping. -/
def contactEntry : SchemaEntry :=
  { fields := ["Id", "IsDeleted", "MasterRecordId", "AccountId", "LastName", "FirstName",
      "Salutation", "Name", "OtherStreet", "OtherCity", "OtherState", "OtherPostalCode",
      "OtherCountry", "MailingStreet", "MailingCity", "MailingState", "MailingPostalCode",
      "MailingCountry", "Phone", "Fax", "MobilePhone", "HomePhone", "OtherPhone",
      "AssistantPhone", "ReportsToId", "Email", "Title", "Department", "AssistantName",
      "LeadSource", "Birthdate", "Description", "CreatedDate", "CreatedById",
      "LastModifiedDate", "LastModifiedById", "SystemModstamp", "LastActivityDate",
      "LastCURequestDate", "LastCUUpdateDate", "LastViewedDate", "LastReferencedDate",
      "EmailBouncedReason", "EmailBouncedDate", "IsEmailBounced", "PhotoUrl",
      "Jigsaw", "JigsawContactId", "CleanStatus", "IndividualId", "Level__c",
      "Languages__c", "Birthday_Month__c", "VIP_Status__c"],
    relationships := ["Account", "ReportsTo", "Opportunities", "Cases", "Tasks", "Events"] }

/-- Lead entry of the schema catalog, verbatim from salesforceMapping. -/
def leadEntry : SchemaEntry :=
  { fields := ["Id", "IsDeleted", "MasterRecordId", "LastName", "FirstName", "Salutation",
      "Name", "Title", "Company", "Street", "City", "State", "PostalCode", "Country",
      "Phone", "MobilePhone", "Fax", "Email", "Website", "PhotoUrl", "Description",
      "LeadSource", "Status", "Industry", "Rating", "AnnualRevenue", "NumberOfEmployees",
      "OwnerId", "IsConverted", "ConvertedDate", "ConvertedAccountId", "ConvertedContactId",
      "ConvertedOpportunityId", "IsUnreadByOwner", "CreatedDate", "CreatedById",
      "LastModifiedDate", "LastModifiedById", "SystemModstamp", "LastActivityDate",
      "LastViewedDate", "LastReferencedDate", "Jigsaw", "JigsawContactId", "CleanStatus",
      "IndividualId", "CompanyDunsNumber", "DandbCompanyId", "EmailBouncedReason",
      "EmailBouncedDate", "IsEmailBounced", "SICCode__c", "ProductInterest__c",
      "Primary__c", "CurrentGenerators__c", "NumberofLocations__c"],
    relationships := ["Owner", "ConvertedAccount", "ConvertedContact", "ConvertedOpportunity"] }

/-- Opportunity entry of the schema catalog, verbatim from salesforceMapping,
    duplicate field names included as in the source array. -/
def opportunityEntry : SchemaEntry :=
  { fields := ["Id", "IsDeleted", "AccountId", "RecordTypeId", "Name", "Amount", "CloseDate",
      "StageName", "Type", "Probability", "ExpectedRevenue", "TotalOpportunityQuantity",
      "CloseDate", "Type", "NextStep", "LeadSource", "IsClosed", "IsWon", "ForecastCategory",
      "ForecastCategoryName", "CampaignId", "HasOpportunityLineItem", "Pricebook2Id",
      "OwnerId", "CreatedDate", "CreatedById", "LastModifiedDate", "LastModifiedById",
      "SystemModstamp", "LastActivityDate", "LastStageChangeDate", "FiscalYear",
      "FiscalQuarter", "Fiscal", "ContactId", "LastViewedDate", "LastReferencedDate",
      "Description", "Type", "LeadSource", "HasOpenActivity", "HasOverdueTask",
      "DeliveryInstallationStatus__c", "TrackingNumber__c", "OrderNumber__c",
      "CurrentGenerators__c", "MainCompetitors__c", "DeliveryInstallationStatus__c"],
    relationships := ["Account", "Contact", "Owner", "Campaign", "Pricebook2", "OpportunityLineItems"] }

/-- Case entry of the schema catalog, verbatim from salesforceMapping. -/
def caseEntry : SchemaEntry :=
  { fields := ["Id", "IsDeleted", "CaseNumber", "ContactId", "AccountId", "AssetId", "ParentId",
      "SuppliedName", "SuppliedEmail", "SuppliedPhone", "SuppliedCompany", "Type",
      "Status", "Reason", "Origin", "Subject", "Priority", "Description", "IsClosed",
      "IsEscalated", "OwnerId", "CreatedDate", "CreatedById", "LastModifiedDate",
      "LastModifiedById", "SystemModstamp", "LastViewedDate", "LastReferencedDate",
      "ClosedDate", "IsClosedOnCreate", "EscalationStartTime", "BusinessHoursId",
      "IsStopped", "StopStartDate", "ContactEmail", "ContactPhone", "ContactMobile",
      "ContactFax", "Comments", "LastCaseUpdate", "CreatedByRole", "LastModifiedByRole",
      "IsVisibleInSelfService", "Days_Since_Last_Update__c", "Escalation_Level__c",
      "SLA_Breach__c", "Customer_Satisfaction__c"],
    relationships := ["Account", "Contact", "Asset", "Parent", "Owner", "BusinessHours"] }

/-- Task entry of the schema catalog, verbatim from salesforceMapping,
    duplicate field names included as in the source array. -/
def taskEntry : SchemaEntry :=
  { fields := ["Id", "WhoId", "WhatId", "WhoCount", "WhatCount", "Subject", "ActivityDate",
      "Status", "Priority", "Description", "Type", "IsDeleted", "AccountId", "IsArchived",
      "CallDurationInSeconds", "CallType", "CallDisposition", "CallObject", "ReminderDateTime",
      "IsReminderSet", "RecurrenceActivityId", "IsRecurrence", "RecurrenceStartDateOnly",
      "RecurrenceEndDateOnly", "RecurrenceTimeZoneSidKey", "RecurrenceType", "RecurrenceInterval",
      "RecurrenceDayOfWeekMask", "RecurrenceDayOfMonth", "RecurrenceInstance",
      "RecurrenceMonthOfYear", "RecurrenceRegeneratedType", "TaskSubtype", "CompletedDateTime",
      "CreatedDate", "CreatedById", "LastModifiedDate", "LastModifiedById", "SystemModstamp",
      "IsArchived", "CallDurationInSeconds", "CallType", "CallDisposition", "CallObject",
      "ReminderDateTime", "IsReminderSet", "RecurrenceActivityId", "IsRecurrence",
      "RecurrenceStartDateOnly", "RecurrenceEndDateOnly", "RecurrenceTimeZoneSidKey",
      "RecurrenceType", "RecurrenceInterval", "RecurrenceDayOfWeekMask", "RecurrenceDayOfMonth",
      "RecurrenceInstance", "RecurrenceMonthOfYear", "RecurrenceRegeneratedType",
      "TaskSubtype", "CompletedDateTime", "CreatedDate", "CreatedById", "LastModifiedDate",
      "LastModifiedById", "SystemModstamp", "IsArchived", "CallDurationInSeconds",
      "CallType", "CallDisposition", "CallObject", "ReminderDateTime", "IsReminderSet",
      "RecurrenceActivityId", "IsRecurrence", "RecurrenceStartDateOnly", "RecurrenceEndDateOnly",
      "RecurrenceTimeZoneSidKey", "RecurrenceType", "RecurrenceInterval", "RecurrenceDayOfWeekMask",
      "RecurrenceDayOfMonth", "RecurrenceInstance", "RecurrenceMonthOfYear",
      "RecurrenceRegeneratedType", "TaskSubtype", "CompletedDateTime", "CreatedDate",
      "CreatedById", "LastModifiedDate", "LastModifiedById", "SystemModstamp"],
    relationships := ["Who", "What", "Account", "Owner"] }

/-- Event entry of the schema catalog, verbatim from salesforceMapping,
    duplicate field names included as in the source array. -/
def eventEntry : SchemaEntry :=
  { fields := ["Id", "WhoId", "WhatId", "WhoCount", "WhatCount", "Subject", "Location",
      "IsAllDayEvent", "ActivityDateTime", "ActivityDate", "DurationInMinutes",
      "StartDateTime", "EndDateTime", "Description", "Type", "IsPrivate", "ShowAs",
      "IsDeleted", "IsArchived", "IsGroupEvent", "GroupEventType", "CreatedDate",
      "CreatedById", "LastModifiedDate", "LastModifiedById", "SystemModstamp",
      "IsArchived", "RecurrenceActivityId", "IsRecurrence", "RecurrenceStartDateOnly",
      "RecurrenceEndDateOnly", "RecurrenceTimeZoneSidKey", "RecurrenceType",
      "RecurrenceInterval", "RecurrenceDayOfWeekMask", "RecurrenceDayOfMonth",
      "RecurrenceInstance", "RecurrenceMonthOfYear", "RecurrenceRegeneratedType",
      "Subject", "Location", "IsAllDayEvent", "ActivityDateTime", "ActivityDate",
      "DurationInMinutes", "StartDateTime", "EndDateTime", "Description", "Type",
      "IsPrivate", "ShowAs", "IsDeleted", "IsArchived", "IsGroupEvent", "GroupEventType"],
    relationships := ["Who", "What", "Owner"] }

/-- Schema catalog: object name to entry, as in salesforceMapping. -/
def schemaObjects : List (String × SchemaEntry) :=
  [("Account", accountEntry), ("Contact", contactEntry), ("Lead", leadEntry),
   ("Opportunity", opportunityEntry), ("Case", caseEntry), ("Task", taskEntry),
   ("Event", eventEntry)]

/-- Property lookup on the schema objects table. -/
def schemaLookup (object : String) : Option SchemaEntry := schemaObjects.lookup object

/-- Names of the supported objects, in catalog order. -/
def catalogNames : List String :=
  ["Account", "Contact", "Lead", "Opportunity", "Case", "Task", "Event"]

/-- Structured gateway response consumed by generateSOQL. -/
structure AIResponse where
  success : Bool
  intent : String
  object : String
  fields : List String
  conditions : List String
  explanation : String
deriving DecidableEq

/-- Fallback processing of openaiService when the gateway is unavailable:
    keyword scan for the object, fixed field triple, empty conditions. -/
def fallbackProcessing (query : String) : AIResponse :=
  let lowerQuery := jsLower query
  let object :=
    if jsIncludes lowerQuery "contact" || jsIncludes lowerQuery "person" then "Contact"
    else if jsIncludes lowerQuery "lead" then "Lead"
    else if jsIncludes lowerQuery "opportunity" || jsIncludes lowerQuery "deal" then "Opportunity"
    else if jsIncludes lowerQuery "case" || jsIncludes lowerQuery "support" then "Case"
    else "Account"
  { success := true, intent := query, object := object,
    fields := ["Id", "Name", "CreatedDate"], conditions := [],
    explanation := "Basic processing: " ++ query ++ " (OpenAI not available)" }

/-- Default field table of the SOQL builder (getDefaultFields). -/
def getDefaultFields (object : String) : List String :=
  let defaultFields : List (String × List String) :=
    [("Account", ["Id", "Name", "Industry", "Type", "CreatedDate"]),
     ("Contact", ["Id", "Name", "Email", "Phone", "Title", "CreatedDate"]),
     ("Lead", ["Id", "Name", "Company", "Email", "Status", "CreatedDate"]),
     ("Opportunity", ["Id", "Name", "Amount", "StageName", "CloseDate", "CreatedDate"]),
     ("Case", ["Id", "CaseNumber", "Subject", "Status", "Priority", "CreatedDate"]),
     ("Task", ["Id", "Subject", "Status", "Priority", "CreatedDate"]),
     ("Event", ["Id", "Subject", "StartDateTime", "EndDateTime", "CreatedDate"])]
  (defaultFields.lookup object).getD ["Id", "Name", "CreatedDate"]

/-- Default condition table of the SOQL builder (getDefaultConditions). -/
def getDefaultConditions (object : String) : List String :=
  let defaultConditions : List (String × List String) :=
    [("Account", ["IsDeleted = false"]), ("Contact", ["IsDeleted = false"]),
     ("Lead", ["IsDeleted = false"]), ("Opportunity", ["IsDeleted = false"]),
     ("Case", ["IsDeleted = false"]), ("Task", ["IsDeleted = false"]),
     ("Event", ["IsDeleted = false"])]
  (defaultConditions.lookup object).getD ["IsDeleted = false"]

/-- Sort-order table of the SOQL builder (getOrderByFields). -/
def getOrderByFields (object : String) : List String :=
  let orderFields : List (String × List String) :=
    [("Account", ["Name"]), ("Contact", ["Name"]), ("Lead", ["Name"]),
     ("Opportunity", ["CloseDate DESC"]), ("Case", ["CreatedDate DESC"]),
     ("Task", ["CreatedDate DESC"]), ("Event", ["StartDateTime"])]
  (orderFields.lookup object).getD ["CreatedDate DESC"]

/-- Universally valid standard fields of the builder (isFieldValid). -/
def stdFields : List String := ["Id", "Name", "CreatedDate", "LastModifiedDate"]

/-- Field validation of the builder: schema membership, or the substring __c,
    or one of the four standard fields. -/
def isFieldValid (field object : String) : Bool :=
  match schemaLookup object with
  | none => false
  | some entry => decide (field ∈ entry.fields) || jsIncludes field "__c" || decide (field ∈ stdFields)

/-- First step of buildSelectClause: substitute the default fields when the
    input list is empty. -/
def effectiveFields (fields : List String) (object : String) : List String :=
  if fields.isEmpty then getDefaultFields object else fields

/-- Second step of buildSelectClause: prepend Id when it is absent. -/
def idFields (fields : List String) (object : String) : List String :=
  if "Id" ∈ effectiveFields fields object then effectiveFields fields object
  else "Id" :: effectiveFields fields object

/-- Third step of buildSelectClause: keep only fields that pass isFieldValid. -/
def validFieldsOf (fields : List String) (object : String) : List String :=
  (idFields fields object).filter (fun fl => isFieldValid fl object)

/-- Field list actually used in the SELECT clause: defaults when empty,
    forced Id prepend when absent, validity filter, Id-Name fallback. -/
def selectedFields (fields : List String) (object : String) : List String :=
  if (validFieldsOf fields object).isEmpty then ["Id", "Name"]
  else validFieldsOf fields object

/-- SELECT clause of the builder. -/
def buildSelectClause (fields : List String) (object : String) : String :=
  "SELECT " ++ joinSep ", " (selectedFields fields object)

/-- FROM clause of the builder. -/
def buildFromClause (object : String) : String := "FROM " ++ object

/-- Keyword scan of the original query (extractConditionsFromQuery):
    temporal phrases are mutually exclusive, the other groups additive. -/
def extractConditionsFromQuery (query object : String) : List String :=
  let lowerQuery := jsLower query
  let dateConds : List String :=
    if jsIncludes lowerQuery "this month" || jsIncludes lowerQuery "current month" then
      ["CreatedDate = THIS_MONTH"]
    else if jsIncludes lowerQuery "last month" then ["CreatedDate = LAST_MONTH"]
    else if jsIncludes lowerQuery "this quarter" then ["CreatedDate = THIS_QUARTER"]
    else if jsIncludes lowerQuery "last quarter" then ["CreatedDate = LAST_QUARTER"]
    else if jsIncludes lowerQuery "this year" then ["CreatedDate = THIS_YEAR"]
    else if jsIncludes lowerQuery "last year" then ["CreatedDate = LAST_YEAR"]
    else []
  let statusConds : List String :=
    if jsIncludes lowerQuery "active" || jsIncludes lowerQuery "open" then
      if object = "Account" then ["Active__c = true"]
      else if object = "Opportunity" then ["IsClosed = false"]
      else if object = "Case" then ["Status != " ++ SQ ++ "Closed" ++ SQ]
      else []
    else []
  let valueConds : List String :=
    if jsIncludes lowerQuery "high revenue" || jsIncludes lowerQuery "high value" then
      if object = "Opportunity" then ["Amount > 100000"]
      else if object = "Account" then ["AnnualRevenue > 1000000"]
      else []
    else []
  let industryConds : List String :=
    if jsIncludes lowerQuery "technology" || jsIncludes lowerQuery "tech" then
      if object = "Account" then ["Industry = " ++ SQ ++ "Technology" ++ SQ]
      else []
    else []
  dateConds ++ statusConds ++ valueConds ++ industryConds

/-- Truthiness filter of the builder on conditions: nonempty and not
    whitespace-only. -/
def nonblankB (c : String) : Bool := !(c == "") && !(jsTrim c == "")

/-- Predicates that survive filtering and deduplication in buildWhereClause. -/
def survivingConditions (conditions : List String) (originalQuery object : String) : List String :=
  jsSetDedup (((conditions ++ extractConditionsFromQuery originalQuery object)
    ++ getDefaultConditions object).filter nonblankB)

/-- WHERE clause of the builder: gateway conditions, then query-derived
    conditions, then default conditions; filter, dedup, join with AND. -/
def buildWhereClause (conditions : List String) (originalQuery object : String) : String :=
  let whereConditions := (conditions ++ extractConditionsFromQuery originalQuery object)
    ++ getDefaultConditions object
  if whereConditions.isEmpty then ""
  else
    let uniqueConditions := jsSetDedup (whereConditions.filter nonblankB)
    if uniqueConditions.isEmpty then ""
    else "WHERE " ++ joinSep " AND " uniqueConditions

/-- ORDER BY clause of the builder. -/
def buildOrderByClause (object : String) : String :=
  let orderFields := getOrderByFields object
  if orderFields.isEmpty then "" else "ORDER BY " ++ joinSep ", " orderFields

/-- Field list visible to the caller of generateSOQL: the input array, with
    Id prepended in place by buildSelectClause exactly when the input was
    nonempty and lacked Id (the empty input is replaced by a fresh default
    array inside buildSelectClause, so it is echoed unchanged). -/
def returnedFields (fields : List String) : List String :=
  if fields.isEmpty then fields
  else if "Id" ∈ fields then fields
  else "Id" :: fields

/-- Result of generateSOQL: the ok branch carries the query text and the
    echoed metadata, the err branch the error message. -/
inductive GenResult where
  | ok (soql : String) (fields : List String) (object : String) (conditions : List String)
  | err (error : String)
deriving DecidableEq

/-- Query assembly (generateSOQL): guard on the success flag, guard on the
    schema catalog, build the five clauses, interpolate with single spaces
    and trim. -/
def generateSOQL (aiResponse : AIResponse) (originalQuery : String) : GenResult :=
  if aiResponse.success = false then GenResult.err "AI response indicates failure"
  else
    match schemaLookup aiResponse.object with
    | none => GenResult.err ("Unsupported object: " ++ aiResponse.object)
    | some _ =>
      let selectClause := buildSelectClause aiResponse.fields aiResponse.object
      let fromClause := buildFromClause aiResponse.object
      let whereClause := buildWhereClause aiResponse.conditions originalQuery aiResponse.object
      let orderByClause := buildOrderByClause aiResponse.object
      let limitClause := "LIMIT 1000"
      GenResult.ok
        (jsTrim (selectClause ++ " " ++ fromClause ++ " " ++ whereClause ++ " "
          ++ orderByClause ++ " " ++ limitClause))
        (returnedFields aiResponse.fields) aiResponse.object aiResponse.conditions

/-- Validation result of validateSOQL. -/
structure ValidationResult where
  isValid : Bool
  error : Option String
deriving DecidableEq

/-- Forbidden keyword list of the validator, in check order. -/
def forbiddenKeywords : List String := ["INSERT", "UPDATE", "DELETE", "DROP", "CREATE", "ALTER"]

/-- Lexical validation (validateSOQL): short-circuit checks for a nonempty
    string, the SELECT and FROM markers, forbidden keywords by substring,
    the LIMIT marker, and the parsed LIMIT value bound. -/
def validateSOQL (soql : String) : ValidationResult :=
  if soql = "" then { isValid := false, error := some "SOQL query is required and must be a string" }
  else
    let upperSoql := jsUpper soql
    if jsIncludes upperSoql "SELECT " = false then
      { isValid := false, error := some "Missing SELECT clause" }
    else if jsIncludes upperSoql " FROM " = false then
      { isValid := false, error := some "Missing FROM clause" }
    else
      match forbiddenKeywords.find? (fun keyword => jsIncludes upperSoql keyword) with
      | some keyword =>
        { isValid := false, error := some ("Forbidden keyword detected: " ++ keyword) }
      | none =>
        if jsIncludes upperSoql " LIMIT " = false then
          { isValid := false, error := some "Missing LIMIT clause for performance" }
        else
          match findLimitValue soql.data with
          | some limitValue =>
            if limitValue > 2000 then
              { isValid := false, error := some "LIMIT value cannot exceed 2000" }
            else { isValid := true, error := none }
          | none => { isValid := true, error := none }

/-- Boolean ends-with test on strings, used to state the claim wording of C5. -/
def endsWithB (s suffix : String) : Bool := listPrefixB suffix.data.reverse s.data.reverse

/-- Modelled from the claim wording of C5: a field is valid when it is in the
    valid field list, or ends with the custom-field suffix, or is one of the
    four standard fields.  The source instead tests the suffix by substring. -/
def isFieldValidClaimed (field object : String) : Bool :=
  match schemaLookup object with
  | none => false
  | some entry => decide (field ∈ entry.fields) || endsWithB field "__c"
      || decide (field ∈ stdFields)

/-- Modelled from the claim wording of C7: deduplicate the concatenated
    predicates first (first occurrence kept), then drop blank entries. -/
def whereSpecSurvivors (conditions : List String) (originalQuery object : String) : List String :=
  (jsSetDedup ((conditions ++ extractConditionsFromQuery originalQuery object)
    ++ getDefaultConditions object)).filter nonblankB

/-- Modelled from the claim wording of C7: the WHERE clause joins the
    surviving predicates with AND and is omitted when none survive. -/
def buildWhereClauseSpec (conditions : List String) (originalQuery object : String) : String :=
  if (whereSpecSurvivors conditions originalQuery object).isEmpty then ""
  else "WHERE " ++ joinSep " AND " (whereSpecSurvivors conditions originalQuery object)

theorem listPrefixB_iff (n : List Char) : ∀ l, listPrefixB n l = true ↔ ∃ t, l = n ++ t := by
  induction n with
  | nil => intro l; simp [listPrefixB]
  | cons a as ih =>
    intro l
    cases l with
    | nil =>
      simp [listPrefixB]
    | cons b bs =>
      simp only [listPrefixB, Bool.and_eq_true, beq_iff_eq, ih bs, List.cons_append]
      constructor
      · rintro ⟨rfl, t, rfl⟩
        exact ⟨t, rfl⟩
      · rintro ⟨t, ht⟩
        injection ht with h1 h2
        exact ⟨h1.symm, t, h2⟩

theorem substrB_iff (n : List Char) : ∀ h, substrB n h = true ↔ ∃ p t, h = p ++ (n ++ t) := by
  intro h
  induction h with
  | nil =>
    rw [substrB, listPrefixB_iff]
    constructor
    · rintro ⟨t, ht⟩
      exact ⟨[], t, by simpa using ht⟩
    · rintro ⟨p, t, ht⟩
      rcases List.append_eq_nil.mp ht.symm with ⟨h1, h2⟩
      rcases List.append_eq_nil.mp h2 with ⟨h3, h4⟩
      exact ⟨[], by simp [h3]⟩
  | cons c t ih =>
    rw [substrB, Bool.or_eq_true, listPrefixB_iff, ih]
    constructor
    · rintro (⟨s, hs⟩ | ⟨p, s, hp⟩)
      · exact ⟨[], s, by simpa using hs⟩
      · exact ⟨c :: p, s, by simp [hp]⟩
    · rintro ⟨p, s, hp⟩
      cases p with
      | nil => exact Or.inl ⟨s, by simpa using hp⟩
      | cons d p2 =>
        rw [List.cons_append] at hp
        exact Or.inr ⟨p2, s, ((List.cons.injEq _ _ _ _).mp hp).2⟩

theorem jsIncludes_iff (hay needle : String) :
    jsIncludes hay needle = true ↔ ∃ p t, hay.data = p ++ (needle.data ++ t) := by
  rw [jsIncludes, substrB_iff]

theorem strExt {s t : String} (h : s.data = t.data) : s = t := by
  cases s; cases t; cases h; rfl

theorem strAppend_assoc (a b c : String) : a ++ b ++ c = a ++ (b ++ c) :=
  strExt (by simp [List.append_assoc])

theorem str_ne_empty_of_data {s : String} (h : s.data ≠ []) : s ≠ "" := by
  intro he
  apply h
  rw [he]

theorem jsIncludes_of_decomp (hay needle : String) (p t : List Char)
    (h : hay.data = p ++ (needle.data ++ t)) : jsIncludes hay needle = true :=
  (substrB_iff needle.data hay.data).mpr ⟨p, t, h⟩

theorem jsUpper_data (s : String) : (jsUpper s).data = s.data.map Char.toUpper := rfl

theorem jsIncludes_upper (s inner needle : String)
    (h1 : jsIncludes s inner = true)
    (h2 : jsIncludes (jsUpper inner) needle = true) :
    jsIncludes (jsUpper s) needle = true := by
  rcases (substrB_iff inner.data s.data).mp h1 with ⟨p, t, hp⟩
  rcases (substrB_iff needle.data (jsUpper inner).data).mp h2 with ⟨p2, t2, hp2⟩
  apply jsIncludes_of_decomp _ _ (p.map Char.toUpper ++ p2) (t2 ++ t.map Char.toUpper)
  rw [jsUpper_data, hp]
  rw [jsUpper_data] at hp2
  simp [hp2, List.append_assoc]

theorem mem_dedupAux (x : String) :
    ∀ (l seen : List String), x ∈ l → x ∉ seen → x ∈ dedupAux seen l := by
  intro l
  induction l with
  | nil => intro seen h; cases h
  | cons a t ih =>
    intro seen hmem hseen
    rw [dedupAux]
    rcases List.mem_cons.mp hmem with rfl | hx
    · rw [if_neg hseen]
      exact List.mem_cons_self _ _
    · by_cases ha : a ∈ seen
      · rw [if_pos ha]
        exact ih seen hx hseen
      · rw [if_neg ha]
        by_cases hxa : x = a
        · subst hxa; exact List.mem_cons_self _ _
        · exact List.mem_cons_of_mem _ (ih (a :: seen) hx (by
            intro hc
            rcases List.mem_cons.mp hc with h1 | h1
            · exact hxa h1
            · exact hseen h1))

theorem dedupAux_nodup_aux :
    ∀ (l seen : List String), (dedupAux seen l).Nodup ∧ ∀ x ∈ dedupAux seen l, x ∉ seen := by
  intro l
  induction l with
  | nil => intro seen; constructor
           · exact List.nodup_nil
           · intro x hx; cases hx
  | cons a t ih =>
    intro seen
    rw [dedupAux]
    by_cases ha : a ∈ seen
    · rw [if_pos ha]
      exact ih seen
    · rw [if_neg ha]
      rcases ih (a :: seen) with ⟨hnd, hnm⟩
      constructor
      · refine List.nodup_cons.mpr ⟨?_, hnd⟩
        intro hc
        exact hnm a hc (List.mem_cons_self _ _)
      · intro x hx
        rcases List.mem_cons.mp hx with rfl | hx2
        · exact ha
        · intro hc
          exact hnm x hx2 (List.mem_cons_of_mem _ hc)

theorem jsSetDedup_nodup (l : List String) : (jsSetDedup l).Nodup :=
  (dedupAux_nodup_aux l []).1

theorem mem_jsSetDedup (x : String) (l : List String) (h : x ∈ l) : x ∈ jsSetDedup l :=
  mem_dedupAux x l [] h (by intro hc; cases hc)

theorem filter_dedupAux (p : String → Bool) :
    ∀ (l seen : List String), (dedupAux seen l).filter p = dedupAux (seen.filter p) (l.filter p) := by
  intro l
  induction l with
  | nil => intro seen; rfl
  | cons a t ih =>
    intro seen
    rw [dedupAux]
    by_cases ha : a ∈ seen
    · rw [if_pos ha]
      by_cases hp : p a = true
      · rw [List.filter_cons_of_pos hp, dedupAux,
          if_pos (List.mem_filter.mpr ⟨ha, hp⟩)]
        exact ih seen
      · rw [List.filter_cons_of_neg (by simpa using hp)]
        exact ih seen
    · rw [if_neg ha]
      by_cases hp : p a = true
      · rw [List.filter_cons_of_pos hp, List.filter_cons_of_pos hp, dedupAux,
          if_neg (fun hc => ha (List.mem_filter.mp hc).1)]
        rw [ih (a :: seen)]
        congr 1
        rw [List.filter_cons_of_pos hp]
      · rw [List.filter_cons_of_neg (by simpa using hp), List.filter_cons_of_neg (by simpa using hp)]
        rw [ih (a :: seen)]
        congr 1
        rw [List.filter_cons_of_neg (by simpa using hp)]

theorem filter_jsSetDedup (p : String → Bool) (l : List String) :
    (jsSetDedup l).filter p = jsSetDedup (l.filter p) := by
  rw [jsSetDedup, jsSetDedup, filter_dedupAux]
  rfl

theorem joinSep_mem_substr (sep x : String) :
    ∀ l, x ∈ l → ∃ p t, (joinSep sep l).data = p ++ (x.data ++ t) := by
  intro l
  induction l with
  | nil => intro h; cases h
  | cons a t ih =>
    intro hmem
    cases t with
    | nil =>
      rcases List.mem_cons.mp hmem with rfl | h2
      · exact ⟨[], [], by simp [joinSep]⟩
      · cases h2
    | cons b t2 =>
      rw [joinSep]
      rcases List.mem_cons.mp hmem with rfl | h2
      · exact ⟨[], (sep ++ joinSep sep (b :: t2)).data, by simp [List.append_assoc]⟩
      · rcases ih h2 with ⟨p, t3, hp⟩
        exact ⟨(a ++ sep).data ++ p, t3, by simp [hp, List.append_assoc]⟩

theorem lookup_getD_prop {β : Type} (P : β → Prop) (d : β) :
    ∀ (t : List (String × β)), (∀ p ∈ t, P p.2) → P d → ∀ k, P ((t.lookup k).getD d) := by
  intro t
  induction t with
  | nil => intro _ hd k; exact hd
  | cons a rest ih =>
    intro hall hd k
    rw [List.lookup]
    by_cases hk : k == a.1
    · simp only [hk]
      exact hall a (List.mem_cons_self _ _)
    · simp only [Bool.not_eq_true] at hk
      simp only [hk]
      exact ih (fun p hp => hall p (List.mem_cons_of_mem _ hp)) hd k

theorem getDefaultConditions_eq (object : String) :
    getDefaultConditions object = ["IsDeleted = false"] := by
  unfold getDefaultConditions
  exact lookup_getD_prop (fun v => v = ["IsDeleted = false"]) _ _ (by decide) rfl object

theorem getOrderByFields_ne_nil (object : String) : getOrderByFields object ≠ [] := by
  unfold getOrderByFields
  exact lookup_getD_prop (fun v => v ≠ []) _ _ (by decide) (by decide) object

theorem dropWhile_eq_self_of_head {p : Char → Bool} :
    ∀ {l : List Char}, (∀ c, l.head? = some c → p c = false) → l.dropWhile p = l := by
  intro l h
  cases l with
  | nil => rfl
  | cons a t =>
    rw [List.dropWhile_cons, h a rfl]
    simp

theorem jsTrim_eq_self (s : String)
    (h1 : ∀ c, s.data.head? = some c → c.isWhitespace = false)
    (h2 : ∀ c, s.data.reverse.head? = some c → c.isWhitespace = false) :
    jsTrim s = s := by
  unfold jsTrim
  rw [dropWhile_eq_self_of_head h1, dropWhile_eq_self_of_head h2, List.reverse_reverse]

theorem mem_surviving (conditions : List String) (originalQuery object : String) :
    "IsDeleted = false" ∈ survivingConditions conditions originalQuery object := by
  apply mem_jsSetDedup
  apply List.mem_filter.mpr
  constructor
  · apply List.mem_append.mpr
    right
    rw [getDefaultConditions_eq]
    exact List.mem_cons_self _ _
  · decide

theorem buildWhereClause_eq (conditions : List String) (originalQuery object : String) :
    buildWhereClause conditions originalQuery object
      = "WHERE " ++ joinSep " AND " (survivingConditions conditions originalQuery object) := by
  unfold buildWhereClause
  have hmem : "IsDeleted = false" ∈ (conditions ++ extractConditionsFromQuery originalQuery object)
      ++ getDefaultConditions object := by
    apply List.mem_append.mpr
    right
    rw [getDefaultConditions_eq]
    exact List.mem_cons_self _ _
  rw [if_neg (by
    intro hc
    rw [List.isEmpty_iff] at hc
    rw [hc] at hmem
    cases hmem)]
  rw [if_neg (by
    intro hc
    rw [List.isEmpty_iff] at hc
    have := mem_surviving conditions originalQuery object
    rw [survivingConditions] at this
    rw [hc] at this
    cases this)]
  rfl

theorem buildOrderByClause_eq (object : String) :
    buildOrderByClause object = "ORDER BY " ++ joinSep ", " (getOrderByFields object) := by
  unfold buildOrderByClause
  rw [if_neg (by
    intro hc
    rw [List.isEmpty_iff] at hc
    exact getOrderByFields_ne_nil object hc)]

theorem generateSOQL_ok (r : AIResponse) (originalQuery : String) (hs : r.success = true)
    (e : SchemaEntry) (he : schemaLookup r.object = some e) :
    generateSOQL r originalQuery = GenResult.ok
      (buildSelectClause r.fields r.object ++ " " ++ buildFromClause r.object ++ " "
        ++ buildWhereClause r.conditions originalQuery r.object ++ " "
        ++ buildOrderByClause r.object ++ " " ++ "LIMIT 1000")
      (returnedFields r.fields) r.object r.conditions := by
  unfold generateSOQL
  rw [hs]
  simp only [Bool.true_eq_false, if_false, he]
  have htrim : jsTrim (buildSelectClause r.fields r.object ++ " " ++ buildFromClause r.object
      ++ " " ++ buildWhereClause r.conditions originalQuery r.object ++ " "
      ++ buildOrderByClause r.object ++ " " ++ "LIMIT 1000")
      = buildSelectClause r.fields r.object ++ " " ++ buildFromClause r.object ++ " "
        ++ buildWhereClause r.conditions originalQuery r.object ++ " "
        ++ buildOrderByClause r.object ++ " " ++ "LIMIT 1000" := by
    apply jsTrim_eq_self
    · intro c hc
      rw [buildSelectClause] at hc
      simp only [String.data_append, List.append_assoc, List.cons_append,
        List.head?_cons, Option.some.injEq] at hc
      rw [← hc]
      decide
    · intro c hc
      simp only [String.data_append, List.reverse_append, List.append_assoc,
        List.reverse_cons, List.reverse_nil, List.nil_append, List.append_nil,
        List.cons_append, List.head?_cons, Option.some.injEq] at hc
      rw [← hc]
      decide
  rw [htrim]

theorem validateSOQL_forbidden (s : String) (hne : s ≠ "")
    (hsel : jsIncludes (jsUpper s) "SELECT " = true)
    (hfrom : jsIncludes (jsUpper s) " FROM " = true)
    (kw : String)
    (hfind : forbiddenKeywords.find? (fun keyword => jsIncludes (jsUpper s) keyword) = some kw) :
    validateSOQL s = { isValid := false, error := some ("Forbidden keyword detected: " ++ kw) } := by
  unfold validateSOQL
  rw [if_neg hne]
  simp only [hsel, hfrom, Bool.true_eq_false, if_false, hfind]

theorem validateSOQL_missing_limit (s : String) (hne : s ≠ "")
    (hsel : jsIncludes (jsUpper s) "SELECT " = true)
    (hfrom : jsIncludes (jsUpper s) " FROM " = true)
    (hfind : forbiddenKeywords.find? (fun keyword => jsIncludes (jsUpper s) keyword) = none)
    (hlim : jsIncludes (jsUpper s) " LIMIT " = false) :
    validateSOQL s = { isValid := false, error := some "Missing LIMIT clause for performance" } := by
  unfold validateSOQL
  rw [if_neg hne]
  simp only [hsel, hfrom, Bool.true_eq_false, if_false, hfind, hlim, if_true]

theorem validateSOQL_limit_value (s : String) (hne : s ≠ "")
    (hsel : jsIncludes (jsUpper s) "SELECT " = true)
    (hfrom : jsIncludes (jsUpper s) " FROM " = true)
    (hfind : forbiddenKeywords.find? (fun keyword => jsIncludes (jsUpper s) keyword) = none)
    (hlim : jsIncludes (jsUpper s) " LIMIT " = true)
    (n : Nat) (hval : findLimitValue s.data = some n) :
    validateSOQL s = if n > 2000 then
        { isValid := false, error := some "LIMIT value cannot exceed 2000" }
      else { isValid := true, error := none } := by
  unfold validateSOQL
  rw [if_neg hne]
  simp only [hsel, hfrom, hlim, Bool.true_eq_false, if_false, hfind, hval]

theorem validateSOQL_invalid_of_drop (s : String)
    (hdrop : jsIncludes (jsUpper s) "DROP" = true) :
    (validateSOQL s).isValid = false := by
  unfold validateSOQL
  by_cases hne : s = ""
  · rw [if_pos hne]
  · rw [if_neg hne]
    by_cases hsel : jsIncludes (jsUpper s) "SELECT " = false
    · simp only [hsel, if_true]
    · simp only [Bool.not_eq_false] at hsel
      simp only [hsel, Bool.true_eq_false, if_false]
      by_cases hfrom : jsIncludes (jsUpper s) " FROM " = false
      · simp only [hfrom, if_true]
      · simp only [Bool.not_eq_false] at hfrom
        simp only [hfrom, Bool.true_eq_false, if_false]
        cases hfind : forbiddenKeywords.find? (fun keyword => jsIncludes (jsUpper s) keyword) with
        | some kw => simp only [hfind]
        | none =>
          exfalso
          have := List.find?_eq_none.mp hfind "DROP" (by decide)
          rw [hdrop] at this
          exact this rfl

theorem find_forbidden_of_delete (P : String → Bool) (hd : P "DELETE" = true) :
    ∃ kw, kw ∈ (["INSERT", "UPDATE", "DELETE"] : List String)
      ∧ forbiddenKeywords.find? P = some kw := by
  rw [forbiddenKeywords]
  cases hi : P "INSERT" with
  | true =>
    exact ⟨"INSERT", by decide, by rw [List.find?_cons_of_pos _ hi]⟩
  | false =>
    cases hu : P "UPDATE" with
    | true =>
      exact ⟨"UPDATE", by decide, by
        rw [List.find?_cons_of_neg _ (by simp [hi]), List.find?_cons_of_pos _ hu]⟩
    | false =>
      exact ⟨"DELETE", by decide, by
        rw [List.find?_cons_of_neg _ (by simp [hi]), List.find?_cons_of_neg _ (by simp [hu]),
          List.find?_cons_of_pos _ hd]⟩

theorem jsIncludes_prefixApp (a b : String) : jsIncludes (a ++ b) a = true :=
  jsIncludes_of_decomp _ _ [] b.data (by simp)

theorem jsIncludes_appLeft (a b x : String) (h : jsIncludes b x = true) :
    jsIncludes (a ++ b) x = true := by
  rcases (substrB_iff x.data b.data).mp h with ⟨p, t, hp⟩
  exact jsIncludes_of_decomp _ _ (a.data ++ p) t (by simp [hp, List.append_assoc])

theorem jsIncludes_appRight (a b x : String) (h : jsIncludes a x = true) :
    jsIncludes (a ++ b) x = true := by
  rcases (substrB_iff x.data a.data).mp h with ⟨p, t, hp⟩
  exact jsIncludes_of_decomp _ _ p (t ++ b.data) (by simp [hp, List.append_assoc])

theorem schemaLookup_of_catalog (obj : String) (h : obj ∈ catalogNames) :
    ∃ e, schemaLookup obj = some e := by
  simp only [catalogNames, List.mem_cons, List.not_mem_nil, or_false] at h
  rcases h with rfl | rfl | rfl | rfl | rfl | rfl | rfl
  · exact ⟨accountEntry, rfl⟩
  · exact ⟨contactEntry, rfl⟩
  · exact ⟨leadEntry, rfl⟩
  · exact ⟨opportunityEntry, rfl⟩
  · exact ⟨caseEntry, rfl⟩
  · exact ⟨taskEntry, rfl⟩
  · exact ⟨eventEntry, rfl⟩

theorem jsTrim_assembledShape (sel obj w o : String) :
    jsTrim ("SELECT " ++ sel ++ " " ++ ("FROM " ++ obj) ++ " " ++ ("WHERE " ++ w) ++ " "
        ++ ("ORDER BY " ++ o) ++ " " ++ "LIMIT 1000")
      = "SELECT " ++ sel ++ " " ++ ("FROM " ++ obj) ++ " " ++ ("WHERE " ++ w) ++ " "
        ++ ("ORDER BY " ++ o) ++ " " ++ "LIMIT 1000" := by
  apply jsTrim_eq_self
  · intro ch hc
    simp only [String.data_append, List.append_assoc, List.cons_append,
      List.head?_cons, Option.some.injEq] at hc
    rw [← hc]
    decide
  · intro ch hc
    simp only [String.data_append, List.reverse_append, List.append_assoc,
      List.reverse_cons, List.reverse_nil, List.nil_append, List.append_nil,
      List.cons_append, List.head?_cons, Option.some.injEq] at hc
    rw [← hc]
    decide

theorem assembled_ne_empty (bs rest : String) :
    ("SELECT " ++ bs) ++ rest ≠ "" := by
  apply str_ne_empty_of_data
  simp [String.data_append]

theorem jsIncludes_where (c : List String) (q obj x : String)
    (hx : x ∈ survivingConditions c q obj) :
    jsIncludes (buildWhereClause c q obj) x = true := by
  rw [buildWhereClause_eq]
  obtain ⟨p, t, hp⟩ := joinSep_mem_substr " AND " x _ hx
  exact jsIncludes_of_decomp _ _ (("WHERE " : String).data ++ p) t
    (by simp [hp, List.append_assoc])

/-- C1 (counterexample): for the query about accounts with high revenue the
    fallback Intent carries the field triple Id, Name, CreatedDate rather
    than an empty field list, and the assembled text therefore differs from
    the text the claim states (which lists Industry and Type). -/
theorem C1_counterexample :
    (fallbackProcessing "Show me accounts with high revenue").fields
        = ["Id", "Name", "CreatedDate"]
    ∧ (["Id", "Name", "CreatedDate"] : List String) ≠ []
    ∧ generateSOQL (fallbackProcessing "Show me accounts with high revenue")
        "Show me accounts with high revenue"
      = GenResult.ok
          "SELECT Id, Name, CreatedDate FROM Account WHERE AnnualRevenue > 1000000 AND IsDeleted = false ORDER BY Name LIMIT 1000"
          ["Id", "Name", "CreatedDate"] "Account" []
    ∧ ("SELECT Id, Name, CreatedDate FROM Account WHERE AnnualRevenue > 1000000 AND IsDeleted = false ORDER BY Name LIMIT 1000" : String)
      ≠ "SELECT Id, Name, Industry, Type, CreatedDate FROM Account WHERE AnnualRevenue > 1000000 AND IsDeleted = false ORDER BY Name LIMIT 1000" := by
  exact ⟨rfl, by decide, by decide, by decide⟩

/-- C1 (amended): with no gateway output, the fallback Intent for the query
    about accounts with high revenue is Account with fields Id, Name and
    CreatedDate and no conditions; the query scan adds the revenue
    predicate, and the assembled text selects exactly those three fields. -/
theorem C1_amended :
    (fallbackProcessing "Show me accounts with high revenue").object = "Account"
    ∧ (fallbackProcessing "Show me accounts with high revenue").fields
        = ["Id", "Name", "CreatedDate"]
    ∧ (fallbackProcessing "Show me accounts with high revenue").conditions = []
    ∧ extractConditionsFromQuery "Show me accounts with high revenue" "Account"
        = ["AnnualRevenue > 1000000"]
    ∧ generateSOQL (fallbackProcessing "Show me accounts with high revenue")
        "Show me accounts with high revenue"
      = GenResult.ok
          "SELECT Id, Name, CreatedDate FROM Account WHERE AnnualRevenue > 1000000 AND IsDeleted = false ORDER BY Name LIMIT 1000"
          ["Id", "Name", "CreatedDate"] "Account" [] := by
  exact ⟨rfl, rfl, rfl, by decide, by decide⟩

/-- C5 (counterexample): the source validates any field containing the
    marker __c anywhere, so a field with __c in the middle is accepted by
    the code although the claimed ends-with rule rejects it. -/
theorem C5_counterexample :
    isFieldValid "X__cY" "Account" = true
    ∧ isFieldValidClaimed "X__cY" "Account" = false := by
  decide

/-- C5 (amended): for every supported object, a field is valid exactly when
    it is in the valid field list of the object, or contains the substring
    __c anywhere, or is one of the four standard fields. -/
theorem C5_field_validity (obj : String) (e : SchemaEntry) (he : schemaLookup obj = some e)
    (field : String) :
    isFieldValid field obj = true
      ↔ (field ∈ e.fields ∨ jsIncludes field "__c" = true ∨ field ∈ stdFields) := by
  unfold isFieldValid
  rw [he]
  simp [Bool.or_eq_true, decide_eq_true_iff, or_assoc]

/-- C5 (witness): the amended equivalence applied to a custom field of the
    Account object. -/
theorem C5_field_validity_witness : isFieldValid "AUM__c" "Account" = true :=
  (C5_field_validity "Account" accountEntry rfl "AUM__c").mpr (Or.inl (by decide))

/-- C6: generateSOQL fails with the unsupported-object error exactly when
    the object has no schema catalog entry, and succeeds, echoing the
    object and conditions, whenever the entry exists. -/
theorem C6_unsupported_object (it ex q obj : String) (f c : List String) :
    (schemaLookup obj = none →
      generateSOQL (AIResponse.mk true it obj f c ex) q
        = GenResult.err ("Unsupported object: " ++ obj))
    ∧ ∀ e, schemaLookup obj = some e →
        ∃ s, generateSOQL (AIResponse.mk true it obj f c ex) q
          = GenResult.ok s (returnedFields f) obj c := by
  constructor
  · intro hn
    simp [generateSOQL, hn]
  · intro e he
    exact ⟨_, generateSOQL_ok _ _ rfl e he⟩

/-- C6 (witness): an object absent from the catalog fails with the typed
    error, and a catalog object succeeds. -/
theorem C6_unsupported_object_witness :
    generateSOQL (AIResponse.mk true "" "Zebra" [] [] "") ""
      = GenResult.err "Unsupported object: Zebra"
    ∧ ∃ s, generateSOQL (AIResponse.mk true "" "Account" [] [] "") ""
      = GenResult.ok s (returnedFields []) "Account" [] := by
  constructor
  · exact (C6_unsupported_object "" "" "" "Zebra" [] []).1 rfl
  · exact (C6_unsupported_object "" "" "" "Account" [] []).2 accountEntry rfl

/-- C7: the WHERE clause of the source equals the clause described by the
    specification (concatenate the intent conditions, the query-derived
    conditions and the default filters; deduplicate by exact equality with
    first occurrences kept; drop blank entries; join with AND; omit the
    clause when nothing survives), and the joined predicate list never
    contains two identical predicate strings. -/
theorem C7_where_clause (conditions : List String) (originalQuery obj : String) :
    buildWhereClause conditions originalQuery obj
      = buildWhereClauseSpec conditions originalQuery obj
    ∧ (survivingConditions conditions originalQuery obj).Nodup := by
  have hsw : whereSpecSurvivors conditions originalQuery obj
      = survivingConditions conditions originalQuery obj := by
    rw [whereSpecSurvivors, survivingConditions, filter_jsSetDedup]
  constructor
  · rw [buildWhereClause_eq, buildWhereClauseSpec, hsw]
    rw [if_neg (by
      rw [List.isEmpty_iff]
      intro hc
      have := mem_surviving conditions originalQuery obj
      rw [hc] at this
      cases this)]
  · exact jsSetDedup_nodup _

/-- C2 (counterexample): a condition string containing two consecutive
    spaces is copied into the WHERE clause verbatim, so the assembled text
    can contain more than one consecutive space. -/
theorem C2_counterexample :
    generateSOQL (AIResponse.mk true "" "Account" ["Id"] ["A  B"] "") ""
      = GenResult.ok
          "SELECT Id FROM Account WHERE A  B AND IsDeleted = false ORDER BY Name LIMIT 1000"
          ["Id"] "Account" ["A  B"]
    ∧ jsIncludes
        "SELECT Id FROM Account WHERE A  B AND IsDeleted = false ORDER BY Name LIMIT 1000"
        "  " = true := by
  decide

/-- C2 (amended): for every Intent over a supported object the assembled
    text consists of exactly one SELECT, FROM, WHERE, ORDER BY and LIMIT
    clause in that fixed order, with single spaces separating consecutive
    clauses, and it equals its own trim, so it carries no leading or
    trailing whitespace; consecutive spaces can occur only inside a clause
    when a supplied condition or field itself contains them. -/
theorem C2_clause_structure (obj : String) (hobj : obj ∈ catalogNames)
    (it ex q : String) (f c : List String) :
    ∃ sel w o,
      generateSOQL (AIResponse.mk true it obj f c ex) q
        = GenResult.ok ("SELECT " ++ sel ++ " " ++ ("FROM " ++ obj) ++ " " ++ ("WHERE " ++ w)
            ++ " " ++ ("ORDER BY " ++ o) ++ " " ++ "LIMIT 1000") (returnedFields f) obj c
      ∧ jsTrim ("SELECT " ++ sel ++ " " ++ ("FROM " ++ obj) ++ " " ++ ("WHERE " ++ w)
            ++ " " ++ ("ORDER BY " ++ o) ++ " " ++ "LIMIT 1000")
          = "SELECT " ++ sel ++ " " ++ ("FROM " ++ obj) ++ " " ++ ("WHERE " ++ w)
            ++ " " ++ ("ORDER BY " ++ o) ++ " " ++ "LIMIT 1000" := by
  obtain ⟨e, he⟩ := schemaLookup_of_catalog obj hobj
  refine ⟨joinSep ", " (selectedFields f obj), joinSep " AND " (survivingConditions c q obj),
    joinSep ", " (getOrderByFields obj), ?_, jsTrim_assembledShape _ _ _ _⟩
  rw [generateSOQL_ok _ _ rfl e he, buildSelectClause, buildFromClause,
    buildWhereClause_eq, buildOrderByClause_eq]

/-- C2 (witness): the clause structure at a concrete supported Intent. -/
theorem C2_clause_structure_witness :
    ∃ sel w o,
      generateSOQL (AIResponse.mk true "" "Account" [] [] "") "x"
        = GenResult.ok ("SELECT " ++ sel ++ " " ++ ("FROM " ++ "Account") ++ " "
            ++ ("WHERE " ++ w) ++ " " ++ ("ORDER BY " ++ o) ++ " " ++ "LIMIT 1000")
            (returnedFields []) "Account" []
      ∧ jsTrim ("SELECT " ++ sel ++ " " ++ ("FROM " ++ "Account") ++ " " ++ ("WHERE " ++ w)
            ++ " " ++ ("ORDER BY " ++ o) ++ " " ++ "LIMIT 1000")
          = "SELECT " ++ sel ++ " " ++ ("FROM " ++ "Account") ++ " " ++ ("WHERE " ++ w)
            ++ " " ++ ("ORDER BY " ++ o) ++ " " ++ "LIMIT 1000" :=
  C2_clause_structure "Account" (by decide) "" "" "x" [] []

/-- C8 (counterexample): a text containing the keyword in lower case can be
    rejected for a different reason; the string drop alone is rejected for
    the missing SELECT clause, not with a reason citing DROP. -/
theorem C8_counterexample :
    jsIncludes (jsUpper "drop") "DROP" = true
    ∧ validateSOQL "drop" = { isValid := false, error := some "Missing SELECT clause" }
    ∧ (some "Missing SELECT clause" : Option String)
      ≠ some "Forbidden keyword detected: DROP" := by
  decide

/-- C8 (amended): every text containing DROP in any letter case at any
    position is rejected as invalid; the reason cites DROP exactly on texts
    that pass the SELECT and FROM checks and contain none of the earlier
    keywords INSERT, UPDATE, DELETE. -/
theorem C8_drop_rejected (s : String) (hdrop : jsIncludes (jsUpper s) "DROP" = true) :
    (validateSOQL s).isValid = false
    ∧ (jsIncludes (jsUpper s) "SELECT " = true →
       jsIncludes (jsUpper s) " FROM " = true →
       jsIncludes (jsUpper s) "INSERT" = false →
       jsIncludes (jsUpper s) "UPDATE" = false →
       jsIncludes (jsUpper s) "DELETE" = false →
       validateSOQL s = { isValid := false, error := some "Forbidden keyword detected: DROP" }) := by
  constructor
  · exact validateSOQL_invalid_of_drop s hdrop
  · intro hsel hfrom hi hu hd
    have hne : s ≠ "" := by
      intro he
      subst he
      exact absurd hdrop (by decide)
    apply validateSOQL_forbidden s hne hsel hfrom "DROP"
    rw [forbiddenKeywords]
    rw [List.find?_cons_of_neg _ (by simp [hi]), List.find?_cons_of_neg _ (by simp [hu]),
      List.find?_cons_of_neg _ (by simp [hd]), List.find?_cons_of_pos _ hdrop]

/-- C8 (witness): a text containing drop after valid SELECT and FROM parts
    is rejected with the DROP reason. -/
theorem C8_drop_rejected_witness :
    validateSOQL "SELECT Id FROM Account drop"
      = { isValid := false, error := some "Forbidden keyword detected: DROP" } :=
  (C8_drop_rejected "SELECT Id FROM Account drop" (by decide)).2
    (by decide) (by decide) (by decide) (by decide) (by decide)

/-- C9: on texts passing the earlier checks (nonempty, SELECT and FROM
    markers, no forbidden keyword), the validator rejects a missing LIMIT
    marker with the missing-LIMIT reason, rejects a parsed LIMIT value above
    2000 with the exceeded reason, and accepts a parsed value of at most
    2000. -/
theorem C9_limit_rules (s : String) (hne : s ≠ "")
    (hsel : jsIncludes (jsUpper s) "SELECT " = true)
    (hfrom : jsIncludes (jsUpper s) " FROM " = true)
    (hkw : forbiddenKeywords.find? (fun keyword => jsIncludes (jsUpper s) keyword) = none) :
    (jsIncludes (jsUpper s) " LIMIT " = false →
      validateSOQL s = { isValid := false, error := some "Missing LIMIT clause for performance" })
    ∧ ∀ n, jsIncludes (jsUpper s) " LIMIT " = true → findLimitValue s.data = some n →
        (2000 < n →
          validateSOQL s = { isValid := false, error := some "LIMIT value cannot exceed 2000" })
        ∧ (n ≤ 2000 → validateSOQL s = { isValid := true, error := none }) := by
  constructor
  · intro hmiss
    exact validateSOQL_missing_limit s hne hsel hfrom hkw hmiss
  · intro n hl hv
    constructor
    · intro hgt
      rw [validateSOQL_limit_value s hne hsel hfrom hkw hl n hv, if_pos hgt]
    · intro hle
      rw [validateSOQL_limit_value s hne hsel hfrom hkw hl n hv, if_neg (by omega)]

/-- C9 (witness): the validator rejects a missing LIMIT clause, rejects
    LIMIT 5000 and accepts LIMIT 1000 on otherwise valid texts. -/
theorem C9_limit_rules_witness :
    validateSOQL "SELECT Id FROM Account"
      = { isValid := false, error := some "Missing LIMIT clause for performance" }
    ∧ validateSOQL "SELECT Id FROM Account LIMIT 5000"
      = { isValid := false, error := some "LIMIT value cannot exceed 2000" }
    ∧ validateSOQL "SELECT Id FROM Account LIMIT 1000"
      = { isValid := true, error := none } := by
  refine ⟨(C9_limit_rules "SELECT Id FROM Account" (by decide) (by decide) (by decide)
      (by decide)).1 (by decide),
    ((C9_limit_rules "SELECT Id FROM Account LIMIT 5000" (by decide) (by decide) (by decide)
      (by decide)).2 5000 (by decide) (by decide)).1 (by decide),
    ((C9_limit_rules "SELECT Id FROM Account LIMIT 1000" (by decide) (by decide) (by decide)
      (by decide)).2 1000 (by decide) (by decide)).2 (by decide)⟩

/-- C10 (counterexample): the fields component returned by generateSOQL is
    the mutated input, not the validated list; an invalid input field is
    echoed back although it was filtered out of the SELECT clause. -/
theorem C10_counterexample :
    generateSOQL (AIResponse.mk true "" "Account" ["BogusField"] [] "") ""
      = GenResult.ok "SELECT Id FROM Account WHERE IsDeleted = false ORDER BY Name LIMIT 1000"
          ["Id", "BogusField"] "Account" []
    ∧ selectedFields ["BogusField"] "Account" = ["Id"]
    ∧ (["Id", "BogusField"] : List String) ≠ ["Id"] := by
  decide

/-- C10 (amended): for every Intent over a supported object the fields
    component of the result is the input field list after the in-place Id
    prepend (Id prepended exactly when the input is nonempty and lacks Id;
    an empty input is echoed unchanged), not the validated list used in the
    SELECT clause. -/
theorem C10_fields_component (obj : String) (hobj : obj ∈ catalogNames)
    (it ex q : String) (f c : List String) :
    ∃ s, generateSOQL (AIResponse.mk true it obj f c ex) q
      = GenResult.ok s (if f.isEmpty then f else if "Id" ∈ f then f else "Id" :: f) obj c
      ∧ s = buildSelectClause f obj ++ " " ++ buildFromClause obj ++ " "
        ++ buildWhereClause c q obj ++ " " ++ buildOrderByClause obj ++ " " ++ "LIMIT 1000" := by
  obtain ⟨e, he⟩ := schemaLookup_of_catalog obj hobj
  exact ⟨_, generateSOQL_ok _ _ rfl e he, rfl⟩

/-- C10 (witness): the fields component at a concrete input lacking Id. -/
theorem C10_fields_component_witness :
    ∃ s, generateSOQL (AIResponse.mk true "" "Account" ["Name"] [] "") ""
      = GenResult.ok s (if (["Name"] : List String).isEmpty then ["Name"]
          else if "Id" ∈ (["Name"] : List String) then ["Name"] else "Id" :: ["Name"]) "Account" []
      ∧ s = buildSelectClause ["Name"] "Account" ++ " " ++ buildFromClause "Account" ++ " "
        ++ buildWhereClause [] "" "Account" ++ " " ++ buildOrderByClause "Account" ++ " "
        ++ "LIMIT 1000" :=
  C10_fields_component "Account" (by decide) "" "" "" ["Name"] []

/-- C3: for every Intent over a supported object, applying validateSOQL to
    the text produced by generateSOQL yields invalid with a forbidden
    keyword reason, because the always-appended default filter IsDeleted =
    false contains DELETE once uppercased; so the validator rejects every
    query the assembler produces. -/
theorem C3_validator_rejects_assembled (obj : String) (hobj : obj ∈ catalogNames)
    (it ex q : String) (f c : List String) (s : String) (fs cs : List String) (o : String)
    (hgen : generateSOQL (AIResponse.mk true it obj f c ex) q = GenResult.ok s fs o cs) :
    ∃ kw, kw ∈ forbiddenKeywords
      ∧ validateSOQL s
        = { isValid := false, error := some ("Forbidden keyword detected: " ++ kw) } := by
  obtain ⟨e, he⟩ := schemaLookup_of_catalog obj hobj
  rw [generateSOQL_ok _ _ rfl e he] at hgen
  cases hgen
  have hselBS : jsIncludes (buildSelectClause f obj) "SELECT " = true := by
    rw [buildSelectClause]
    exact jsIncludes_prefixApp _ _
  have hsel : jsIncludes (buildSelectClause f obj ++ " " ++ buildFromClause obj ++ " "
      ++ buildWhereClause c q obj ++ " " ++ buildOrderByClause obj ++ " " ++ "LIMIT 1000")
      "SELECT " = true := by
    exact jsIncludes_appRight _ _ _ (jsIncludes_appRight _ _ _ (jsIncludes_appRight _ _ _
      (jsIncludes_appRight _ _ _ (jsIncludes_appRight _ _ _ (jsIncludes_appRight _ _ _
      (jsIncludes_appRight _ _ _ (jsIncludes_appRight _ _ _ hselBS)))))))
  have hfromA3 : jsIncludes (buildSelectClause f obj ++ " " ++ buildFromClause obj)
      " FROM " = true := by
    rw [buildFromClause, strAppend_assoc]
    exact jsIncludes_appLeft _ _ _ (jsIncludes_of_decomp _ _ [] obj.data (by simp))
  have hfrom : jsIncludes (buildSelectClause f obj ++ " " ++ buildFromClause obj ++ " "
      ++ buildWhereClause c q obj ++ " " ++ buildOrderByClause obj ++ " " ++ "LIMIT 1000")
      " FROM " = true := by
    exact jsIncludes_appRight _ _ _ (jsIncludes_appRight _ _ _ (jsIncludes_appRight _ _ _
      (jsIncludes_appRight _ _ _ (jsIncludes_appRight _ _ _ (jsIncludes_appRight _ _ _
      hfromA3)))))
  have hdelW : jsIncludes (buildWhereClause c q obj) "IsDeleted = false" = true :=
    jsIncludes_where c q obj _ (mem_surviving c q obj)
  have hdel : jsIncludes (buildSelectClause f obj ++ " " ++ buildFromClause obj ++ " "
      ++ buildWhereClause c q obj ++ " " ++ buildOrderByClause obj ++ " " ++ "LIMIT 1000")
      "IsDeleted = false" = true := by
    exact jsIncludes_appRight _ _ _ (jsIncludes_appRight _ _ _ (jsIncludes_appRight _ _ _
      (jsIncludes_appRight _ _ _ (jsIncludes_appLeft _ _ _ hdelW))))
  have hne : (buildSelectClause f obj ++ " " ++ buildFromClause obj ++ " "
      ++ buildWhereClause c q obj ++ " " ++ buildOrderByClause obj ++ " " ++ "LIMIT 1000")
      ≠ "" := by
    apply str_ne_empty_of_data
    rw [buildSelectClause]
    simp [String.data_append]
  have hselU := jsIncludes_upper _ "SELECT " "SELECT " hsel (by decide)
  have hfromU := jsIncludes_upper _ " FROM " " FROM " hfrom (by decide)
  have hdelU := jsIncludes_upper _ "IsDeleted = false" "DELETE" hdel (by decide)
  obtain ⟨kw, hkwmem, hfind⟩ := find_forbidden_of_delete
    (fun keyword => jsIncludes (jsUpper (buildSelectClause f obj ++ " " ++ buildFromClause obj
      ++ " " ++ buildWhereClause c q obj ++ " " ++ buildOrderByClause obj ++ " "
      ++ "LIMIT 1000")) keyword) hdelU
  refine ⟨kw, ?_, validateSOQL_forbidden _ hne hselU hfromU kw hfind⟩
  simp only [List.mem_cons, List.not_mem_nil, or_false] at hkwmem
  rcases hkwmem with rfl | rfl | rfl <;> decide

/-- C3 (witness): the rejection at a concrete assembled Account query. -/
theorem C3_validator_rejects_assembled_witness :
    ∃ kw, kw ∈ forbiddenKeywords
      ∧ validateSOQL "SELECT Id FROM Account WHERE IsDeleted = false ORDER BY Name LIMIT 1000"
        = { isValid := false, error := some ("Forbidden keyword detected: " ++ kw) } :=
  C3_validator_rejects_assembled "Account" (by decide) "" "" "" ["Id"] []
    "SELECT Id FROM Account WHERE IsDeleted = false ORDER BY Name LIMIT 1000"
    ["Id"] [] "Account" (by decide)

/-- C4 (counterexample): when the input already contains Id at a later
    position, the source keeps it there, so Id is not at the first position
    of the selected field list. -/
theorem C4_counterexample :
    selectedFields ["Name", "Id"] "Account" = ["Name", "Id"]
    ∧ (selectedFields ["Name", "Id"] "Account").head? ≠ some "Id"
    ∧ buildSelectClause ["Name", "Id"] "Account" = "SELECT Name, Id"
    ∧ selectedFields ["Id", "Id"] "Account" = ["Id", "Id"]
    ∧ (selectedFields ["Id", "Id"] "Account").count "Id" ≠ 1 := by
  decide

/-- C4 (amended): for every supported object the selected field list always
    contains Id; and whenever the input list does not already contain Id
    (in particular when it is empty), Id appears exactly once and at the
    first position. -/
theorem C4_id_field (obj : String) (hobj : obj ∈ catalogNames) (f : List String) :
    "Id" ∈ selectedFields f obj
    ∧ ("Id" ∉ f → (selectedFields f obj).head? = some "Id"
        ∧ (selectedFields f obj).count "Id" = 1) := by
  obtain ⟨e, he⟩ := schemaLookup_of_catalog obj hobj
  have hvalid : isFieldValid "Id" obj = true := by
    unfold isFieldValid
    rw [he]
    simp [stdFields]
  by_cases hf : f = []
  · subst hf
    simp only [catalogNames, List.mem_cons, List.not_mem_nil, or_false] at hobj
    rcases hobj with rfl | rfl | rfl | rfl | rfl | rfl | rfl <;>
      exact ⟨by decide, fun _ => ⟨by decide, by decide⟩⟩
  · have hne : ¬ (f.isEmpty = true) := by
      rw [List.isEmpty_iff]
      exact hf
    have heff : effectiveFields f obj = f := by
      rw [effectiveFields, if_neg hne]
    by_cases hid : "Id" ∈ f
    · have hidf : idFields f obj = f := by
        rw [idFields, heff, if_pos hid]
      have hmemfil : "Id" ∈ validFieldsOf f obj := by
        rw [validFieldsOf, hidf]
        exact List.mem_filter.mpr ⟨hid, hvalid⟩
      have hfil_ne : ¬ ((validFieldsOf f obj).isEmpty = true) := by
        rw [List.isEmpty_iff]
        intro hc
        rw [hc] at hmemfil
        cases hmemfil
      have hsel : selectedFields f obj = validFieldsOf f obj := by
        rw [selectedFields, if_neg hfil_ne]
      rw [hsel]
      exact ⟨hmemfil, fun hcontra => absurd hid hcontra⟩
    · have hidf : idFields f obj = "Id" :: f := by
        rw [idFields, heff, if_neg hid]
      have hfil : validFieldsOf f obj
          = "Id" :: f.filter (fun fl => isFieldValid fl obj) := by
        rw [validFieldsOf, hidf]
        exact @List.filter_cons_of_pos _ (fun fl => isFieldValid fl obj) "Id" f hvalid
      have hsel : selectedFields f obj
          = "Id" :: f.filter (fun fl => isFieldValid fl obj) := by
        rw [selectedFields, hfil]
        rw [if_neg (by simp)]
      rw [hsel]
      have hnotf : "Id" ∉ f.filter (fun fl => isFieldValid fl obj) :=
        fun hc => hid (List.mem_filter.mp hc).1
      refine ⟨List.mem_cons_self _ _, fun _ => ⟨rfl, ?_⟩⟩
      rw [List.count_cons_self, List.count_eq_zero.mpr hnotf]

/-- C4 (witness): the amended property at a concrete input lacking Id. -/
theorem C4_id_field_witness :
    "Id" ∈ selectedFields ["Name"] "Account"
    ∧ (selectedFields ["Name"] "Account").head? = some "Id"
    ∧ (selectedFields ["Name"] "Account").count "Id" = 1 := by
  obtain ⟨h1, h2⟩ := C4_id_field "Account" (by decide) ["Name"]
  exact ⟨h1, (h2 (by decide)).1, (h2 (by decide)).2⟩
